import Mathlib

/-!
Shallow embedding of the Cashier_System point-of-sale core: the SQLite-backed
`Database` class (`database.py`) and the `Product` / `CartItem` / `Cart` /
`CashierSystem` classes (`models.py`).

Modelling conventions:
* Monetary values (`price`, `total`, `line_total`) are rationals; Python's
  `round(x, 2)` is modelled by `round2` (round to 2 decimal places).
* SQLite tables are Lean lists of row structures; `UPDATE ... WHERE c` is a
  `List.map` guarded by `c`, `DELETE ... WHERE c` is a `List.filter`,
  `INSERT` appends, `SELECT ... WHERE c` is `List.find?` / `List.filter`.
* `datetime.now()` is an abstract clock value `now` carried in the state.
* Python exceptions are modelled with `Except PyErr`; a method that contains
  no `raise` statement is a total function returning only the new state.
-/

/-- Decidable equality for `Except`, needed to evaluate concrete outcomes. -/
instance {ε α : Type} [DecidableEq ε] [DecidableEq α] :
    DecidableEq (Except ε α) := fun a b =>
  match a, b with
  | .error e, .error e' =>
    if h : e = e' then .isTrue (by rw [h]) else
      .isFalse (fun hc => h (by cases hc; rfl))
  | .ok v, .ok v' =>
    if h : v = v' then .isTrue (by rw [h]) else
      .isFalse (fun hc => h (by cases hc; rfl))
  | .error _, .ok _ => .isFalse (fun hc => Except.noConfusion hc)
  | .ok _, .error _ => .isFalse (fun hc => Except.noConfusion hc)

/-- Round a rational to two decimal places, modelling Python `round(x, 2)`. -/
def round2 (q : ℚ) : ℚ := (round (100 * q) : ℤ) / 100

/-- A row of the `products` table (`id`, `barcode`, `name`, `price`,
`quantity_in_stock`). -/
structure ProductRow where
  id : Nat
  barcode : String
  name : String
  price : ℚ
  quantity_in_stock : Int
deriving Repr, DecidableEq

/-- A row of the `sales` master table (`id`, `timestamp`, `total`). -/
structure SaleRow where
  id : Nat
  timestamp : Nat
  total : ℚ
deriving Repr, DecidableEq

/-- A row of the `sale_items` line-item table. -/
structure SaleItemRow where
  sale_id : Nat
  product_id : Nat
  quantity : Int
  line_total : ℚ
deriving Repr, DecidableEq

/-- One element of the `items` list passed to `Database.record_sale`
(a dict with keys `product_id`, `quantity`, `line_total`). -/
structure LineItemInput where
  product_id : Nat
  quantity : Int
  line_total : ℚ
deriving Repr, DecidableEq

/-- The state of the SQLite database managed by the `Database` class:
the three tables, the AUTOINCREMENT counter for `sales.id`, and the
abstract clock read by `datetime.now()`. -/
structure Database where
  products : List ProductRow
  sales : List SaleRow
  sale_items : List SaleItemRow
  next_sale_id : Nat
  now : Nat
deriving Repr, DecidableEq

/-- `Database.get_product_by_barcode`: `SELECT * FROM products WHERE barcode = ?`,
first matching row or `None`. -/
def Database.get_product_by_barcode (db : Database) (barcode : String) :
    Option ProductRow :=
  db.products.find? (fun p => p.barcode = barcode)

/-- `Database.get_product_by_id`: `SELECT * FROM products WHERE id = ?`. -/
def Database.get_product_by_id (db : Database) (product_id : Nat) :
    Option ProductRow :=
  db.products.find? (fun p => p.id = product_id)

/-- `Database.delete_product`: `DELETE FROM products WHERE id = ?`; returns the
new state and whether a row was actually deleted (`cur.rowcount > 0`). -/
def Database.delete_product (db : Database) (product_id : Nat) :
    Database × Bool :=
  let remaining := db.products.filter (fun p => p.id ≠ product_id)
  ({ db with products := remaining },
   decide (remaining.length < db.products.length))

/-- `Database.adjust_stock`:
`UPDATE products SET quantity_in_stock = quantity_in_stock + ?`
`WHERE id = ? AND quantity_in_stock + ? >= 0`.
Rows failing the condition are left untouched; the Python method returns
`None` and raises nothing, so the caller receives no failure signal.
`adjustRow` is the per-row effect of the guarded `UPDATE`. -/
def Database.adjustRow (product_id : Nat) (delta : Int) (p : ProductRow) :
    ProductRow :=
  if p.id = product_id ∧ 0 ≤ p.quantity_in_stock + delta then
    { p with quantity_in_stock := p.quantity_in_stock + delta }
  else p

/-- The table-level effect of `Database.adjust_stock`: apply `adjustRow` to
every row (SQLite applies the guarded `UPDATE` to each row independently). -/
def Database.adjust_stock (db : Database) (product_id : Nat) (delta : Int) :
    Database :=
  { db with
    products := db.products.map (Database.adjustRow product_id delta) }

/-- `Database.record_sale`: inserts the sale header, then for each item inserts
its `sale_items` row and calls `adjust_stock` with the negated quantity.
There is no error path: every step is unconditional except the silent guard
inside `adjust_stock`. -/
def Database.record_sale (db : Database) (items : List LineItemInput)
    (total : ℚ) : Database :=
  let sale_id := db.next_sale_id
  let db1 : Database :=
    { db with
      sales := db.sales ++ [{ id := sale_id, timestamp := db.now, total := total }],
      next_sale_id := sale_id + 1 }
  items.foldl (fun d it =>
    let d1 : Database :=
      { d with
        sale_items := d.sale_items ++
          [{ sale_id := sale_id, product_id := it.product_id,
             quantity := it.quantity, line_total := it.line_total }] }
    d1.adjust_stock it.product_id (-it.quantity)) db1

/-- One row of the join produced by `Database.get_sale_details`:
`SELECT si.*, p.name, p.barcode, p.price FROM sale_items si JOIN products p
ON si.product_id = p.id WHERE si.sale_id = ?`. -/
structure SaleItemDetail where
  sale_id : Nat
  product_id : Nat
  quantity : Int
  line_total : ℚ
  name : String
  barcode : String
  price : ℚ
deriving Repr, DecidableEq

/-- The combined result of `Database.get_sale_details`. -/
structure SaleDetails where
  sale : SaleRow
  items : List SaleItemDetail
deriving Repr, DecidableEq

/-- `Database.get_sale_details`: the sale header, plus its line items
inner-joined with the `products` table (a line item whose product no longer
exists produces no output row). -/
def Database.get_sale_details (db : Database) (sale_id : Nat) :
    Option SaleDetails :=
  match db.sales.find? (fun s => s.id = sale_id) with
  | none => none
  | some sale =>
    let items :=
      (db.sale_items.filter (fun si => si.sale_id = sale_id)).filterMap
        (fun si =>
          (db.products.find? (fun p => p.id = si.product_id)).map
            (fun p =>
              { sale_id := si.sale_id, product_id := si.product_id,
                quantity := si.quantity, line_total := si.line_total,
                name := p.name, barcode := p.barcode, price := p.price }))
    some { sale := sale, items := items }

/-- The `Product` class of `models.py`: a product fetched from the database
(the row's `quantity_in_stock` becomes the `stock` attribute). -/
structure Product where
  id : Nat
  barcode : String
  name : String
  price : ℚ
  stock : Int
deriving Repr, DecidableEq

/-- `Product.__init__(row)`: build a `Product` from a database row. -/
def Product.ofRow (row : ProductRow) : Product :=
  { id := row.id, barcode := row.barcode, name := row.name,
    price := row.price, stock := row.quantity_in_stock }

/-- The `CartItem` class: one line in the current cart. -/
structure CartItem where
  product : Product
  qty : Int
deriving Repr, DecidableEq

/-- `CartItem.line_total`: `round(self.product.price * self.qty, 2)`. -/
def CartItem.line_total (ci : CartItem) : ℚ :=
  round2 (ci.product.price * ci.qty)

/-- The `Cart` class: holds the current sale items. -/
structure Cart where
  items : List CartItem
deriving Repr, DecidableEq

/-- The loop body of `Cart.add_item`: walk the item list; the first line whose
product id matches has its quantity increased; if none matches, a new
`CartItem` is appended at the end. -/
def Cart.addItemAux (items : List CartItem) (product : Product) (qty : Int) :
    List CartItem :=
  match items with
  | [] => [{ product := product, qty := qty }]
  | ci :: rest =>
    if ci.product.id = product.id then { ci with qty := ci.qty + qty } :: rest
    else ci :: Cart.addItemAux rest product qty

/-- `Cart.add_item`: merge into an existing line for the same product id,
else append a new line. No quantity validation is performed. -/
def Cart.add_item (c : Cart) (product : Product) (qty : Int) : Cart :=
  { items := Cart.addItemAux c.items product qty }

/-- `Cart.remove_item`: drop every line whose product id matches. -/
def Cart.remove_item (c : Cart) (product_id : Nat) : Cart :=
  { items := c.items.filter (fun ci => ci.product.id ≠ product_id) }

/-- `Cart.clear`: empty the item list. -/
def Cart.clear (_c : Cart) : Cart := { items := [] }

/-- `Cart.subtotal`: `round(sum(ci.line_total for ci in self.items), 2)`. -/
def Cart.subtotal (c : Cart) : ℚ :=
  round2 ((c.items.map CartItem.line_total).sum)

/-- Python exceptions raised by the model (`ValueError` with its message). -/
inductive PyErr where
  | valueError (msg : String)
deriving Repr, DecidableEq

/-- The `CashierSystem` class: a database handle plus the current cart. -/
structure CashierSystem where
  db : Database
  cart : Cart
deriving Repr, DecidableEq

/-- `CashierSystem.scan_and_add`: fetch the product by barcode, raise
`ValueError "Product not found."` if absent, raise
`ValueError "Not enough stock."` if `qty > prod.stock`, else add to the cart
and return `(prod, qty)`. The returned state is the post-call system state:
on an exception the cart was not touched. -/
def CashierSystem.scan_and_add (sys : CashierSystem) (barcode : String)
    (qty : Int) : CashierSystem × Except PyErr (Product × Int) :=
  match sys.db.get_product_by_barcode barcode with
  | none => (sys, .error (.valueError "Product not found."))
  | some row =>
    let prod := Product.ofRow row
    if prod.stock < qty then (sys, .error (.valueError "Not enough stock."))
    else ({ sys with cart := sys.cart.add_item prod qty }, .ok (prod, qty))

/-- The dict returned by `CashierSystem.apply_discount_tax`
(`subtotal`, `taxed`, `discount`, `total`). -/
structure Totals where
  subtotal : ℚ
  taxed : ℚ
  discount : ℚ
  total : ℚ
deriving Repr, DecidableEq

/-- `CashierSystem.apply_discount_tax(discount)`: `sub = cart.subtotal`;
`total = round(sub - discount, 2)`; returns the dict with
`total = max(total, 0)` and `taxed = sub` (no tax applied). -/
def CashierSystem.apply_discount_tax (sys : CashierSystem) (discount : ℚ) :
    Totals :=
  let sub := sys.cart.subtotal
  { subtotal := sub, taxed := sub, discount := discount,
    total := max (round2 (sub - discount)) 0 }

/-- The receipt dict returned by `CashierSystem.checkout`: the item tuples
`(name, qty, price, line_total)`, the four totals fields, and a timestamp. -/
structure Receipt where
  items : List (String × Int × ℚ × ℚ)
  subtotal : ℚ
  taxed : ℚ
  discount : ℚ
  total : ℚ
  timestamp : Nat
deriving Repr, DecidableEq

/-- `CashierSystem.checkout(discount)`: compute totals, build the line-item
dicts from the cart, call `Database.record_sale`, build the receipt from the
(still unchanged) cart, then clear the cart. There is no failure path: the
Lean model, like the Python method, raises nothing for insufficient stock. -/
def CashierSystem.checkout (sys : CashierSystem) (discount : ℚ) :
    CashierSystem × Receipt :=
  let totals := sys.apply_discount_tax discount
  let items_data : List LineItemInput := sys.cart.items.map (fun ci =>
    { product_id := ci.product.id, quantity := ci.qty,
      line_total := ci.line_total })
  let db1 := sys.db.record_sale items_data totals.total
  let receipt : Receipt :=
    { items := sys.cart.items.map (fun ci =>
        (ci.product.name, ci.qty, ci.product.price, ci.line_total)),
      subtotal := totals.subtotal, taxed := totals.taxed,
      discount := totals.discount, total := totals.total,
      timestamp := sys.db.now }
  ({ db := db1, cart := sys.cart.clear }, receipt)

/-- The error outcome named by the specification for a stock decrement that
would drive stock negative. -/
inductive SpecErr where
  | insufficientStock
deriving Repr, DecidableEq

/-- Transcription of the specification sentence for `adjustStock(id, delta)`
(spec 4.1): atomically applies `stock += delta` only if the resulting stock
would be >= 0; otherwise the call has no effect and reports
`InsufficientStock`. Stated over the same state type as
`Database.adjust_stock` so the two can be compared; it exists only to be
diffed against the source-derived definition. -/
def adjustStock_specClaim (db : Database) (product_id : Nat) (delta : Int) :
    Except SpecErr Database :=
  match db.products.find? (fun p => p.id = product_id) with
  | none => .ok db
  | some p =>
    if 0 ≤ p.quantity_in_stock + delta then
      .ok { db with
            products := db.products.map (fun q =>
              if q.id = product_id then
                { q with quantity_in_stock := q.quantity_in_stock + delta }
              else q) }
    else .error .insufficientStock

/-- Fixture: a catalog holding one product (id 1, barcode "A1", price 2,
stock 1) and an empty sale history. -/
def db_c1 : Database :=
  { products := [{ id := 1, barcode := "A1", name := "Apple", price := 2,
                   quantity_in_stock := 1 }],
    sales := [], sale_items := [], next_sale_id := 7, now := 5 }

/-- Fixture: one product with stock 3. -/
def db_c2 : Database :=
  { products := [{ id := 1, barcode := "A1", name := "Apple", price := 2,
                   quantity_in_stock := 3 }],
    sales := [], sale_items := [], next_sale_id := 1, now := 0 }

/-- Fixture: a cashier session whose cart needs 5 units of product 1 while
the catalog only has 1 in stock. -/
def sys_c3 : CashierSystem :=
  { db := { products := [{ id := 1, barcode := "A1", name := "Apple",
                           price := 2, quantity_in_stock := 1 }],
            sales := [], sale_items := [], next_sale_id := 1, now := 0 },
    cart := { items := [{ product := { id := 1, barcode := "A1",
                                       name := "Apple", price := 2,
                                       stock := 1 },
                          qty := 5 }] } }

/-- Fixture: the product row used by the `sys_c4` session (stock 2). -/
def row_c4 : ProductRow :=
  { id := 1, barcode := "A1", name := "Apple", price := 2,
    quantity_in_stock := 2 }

/-- Fixture: a session over a catalog holding only `row_c4`, empty cart. -/
def sys_c4 : CashierSystem :=
  { db := { products := [row_c4], sales := [], sale_items := [],
            next_sale_id := 1, now := 0 },
    cart := { items := [] } }

/-- Fixture: an empty cart. -/
def cart_c6 : Cart := { items := [] }

/-- Fixture: a product value used for cart-merge experiments. -/
def prod_c6 : Product :=
  { id := 4, barcode := "B7", name := "Pear", price := 3, stock := 9 }

/-- Fixture: the product row used by the `sys_c8` session (stock 5). -/
def row_c8 : ProductRow :=
  { id := 1, barcode := "A1", name := "Apple", price := 2,
    quantity_in_stock := 5 }

/-- Fixture: a session over a catalog holding only `row_c8`, empty cart. -/
def sys_c8 : CashierSystem :=
  { db := { products := [row_c8], sales := [], sale_items := [],
            next_sale_id := 1, now := 0 },
    cart := { items := [] } }

/-- Fixture: a product row with a parametric stock level. -/
def row_c9 (s : Int) : ProductRow :=
  { id := 1, barcode := "A1", name := "Apple", price := 2,
    quantity_in_stock := s }

/-- Fixture: a session over a catalog holding only `row_c9 s`, empty cart. -/
def sys_c9 (s : Int) : CashierSystem :=
  { db := { products := [row_c9 s], sales := [], sale_items := [],
            next_sale_id := 1, now := 0 },
    cart := { items := [] } }

/-- Fixture: the state after one successful scan of `row_c9 s` with
quantity `s`: same catalog, one cart line of quantity `s`. -/
def sys1_c9 (s : Int) : CashierSystem :=
  { db := (sys_c9 s).db,
    cart := { items := [{ product := Product.ofRow (row_c9 s), qty := s }] } }

/-- Fixture: the state after a second successful scan of `row_c9 s` with
quantity `s`: still one cart line, now of quantity `s + s`. -/
def sys2_c9 (s : Int) : CashierSystem :=
  { db := (sys_c9 s).db,
    cart := { items := [{ product := Product.ofRow (row_c9 s),
                          qty := s + s }] } }

/-- Fixture: a database holding one product, one recorded sale and the
sale's single line item referencing that product. -/
def db_c10 : Database :=
  { products := [{ id := 1, barcode := "A1", name := "Apple", price := 2,
                   quantity_in_stock := 0 }],
    sales := [{ id := 1, timestamp := 0, total := 10 }],
    sale_items := [{ sale_id := 1, product_id := 1, quantity := 2,
                     line_total := 10 }],
    next_sale_id := 2, now := 3 }

/-- C1: the claim says `record_sale` is all-or-nothing and rejects the whole
sale when a stock decrement would fail. The code disagrees: against a catalog
with stock 1, recording a sale of 5 units persists the sale header and the
line item while silently skipping the stock decrement — partial state is
committed and nothing is rejected. -/
theorem claim1_record_sale_commits_partial_state :
    db_c1.record_sale
      [{ product_id := 1, quantity := 5, line_total := 10 }] 10 =
    { products := [{ id := 1, barcode := "A1", name := "Apple", price := 2,
                     quantity_in_stock := 1 }],
      sales := [{ id := 7, timestamp := 5, total := 10 }],
      sale_items := [{ sale_id := 7, product_id := 1, quantity := 5,
                       line_total := 10 }],
      next_sale_id := 8, now := 5 } := by
  decide

/-- C2 (counterexample): the claim says that when `stock + delta < 0` the
call reports `InsufficientStock` to the caller. On stock 3 with delta -5 the
spec-transcribed operation returns the error, but the code's `adjust_stock`
returns normally with the database unchanged: its observable outcome
(a plain return) differs from the claimed one. -/
theorem claim2_adjust_stock_silent_counterexample :
    (Except.ok (db_c2.adjust_stock 1 (-5)) ≠ adjustStock_specClaim db_c2 1 (-5)) ∧
    db_c2.adjust_stock 1 (-5) = db_c2 ∧
    adjustStock_specClaim db_c2 1 (-5) = .error .insufficientStock := by
  refine ⟨?_, by decide, rfl⟩
  intro h
  rw [show adjustStock_specClaim db_c2 1 (-5)
        = Except.error SpecErr.insufficientStock from rfl] at h
  exact Except.noConfusion h

/-- C3: the claim says a checkout whose stock has dropped below what the cart
needs fails with `InsufficientStock` and preserves the cart. The code
disagrees: with stock 1 and a cart needing 5 units, `checkout` succeeds,
appends the sale header and line item, leaves the stock untouched (the
decrement is silently skipped) and clears the cart. -/
theorem claim3_checkout_commits_despite_shortfall :
    ((sys_c3.checkout 0).1.cart.items = []) ∧
    ((sys_c3.checkout 0).1.db.sales.map SaleRow.id = [1]) ∧
    ((sys_c3.checkout 0).1.db.sale_items.map
        (fun r => (r.product_id, r.quantity)) = [(1, 5)]) ∧
    ((sys_c3.checkout 0).1.db.products = sys_c3.db.products) := by
  refine ⟨rfl, rfl, rfl, by decide⟩

/-- C8: the claim says non-positive quantities are rejected with
`InvalidQuantity` before any mutation. The code has no such check:
`scan_and_add` with quantity 0 (and with -3) succeeds and adds a
non-positive-quantity line to the cart. -/
theorem claim8_nonpositive_qty_accepted :
    sys_c8.scan_and_add "A1" 0 =
      ({ sys_c8 with
         cart := { items := [{ product := Product.ofRow row_c8, qty := 0 }] } },
       .ok (Product.ofRow row_c8, 0)) ∧
    sys_c8.scan_and_add "A1" (-3) =
      ({ sys_c8 with
         cart := { items := [{ product := Product.ofRow row_c8, qty := -3 }] } },
       .ok (Product.ofRow row_c8, -3)) := by
  refine ⟨by decide, by decide⟩

/-- The guarded row update never changes a row's id. -/
theorem adjustRow_id (product_id : Nat) (delta : Int) (p : ProductRow) :
    (Database.adjustRow product_id delta p).id = p.id := by
  unfold Database.adjustRow
  split <;> rfl

/-- Searching by id commutes with the guarded row update, because the update
preserves ids. -/
theorem find?_map_adjustRow (l : List ProductRow) (product_id : Nat)
    (delta : Int) :
    (l.map (Database.adjustRow product_id delta)).find?
        (fun p => p.id = product_id) =
      (l.find? (fun p => p.id = product_id)).map
        (Database.adjustRow product_id delta) := by
  induction l with
  | nil => rfl
  | cons a t ih =>
    by_cases h : a.id = product_id
    · rw [List.map_cons, List.find?_cons_of_pos _ (by simp [adjustRow_id, h]),
        List.find?_cons_of_pos _ (by simp [h])]
      simp
    · rw [List.map_cons, List.find?_cons_of_neg _ (by simp [adjustRow_id, h]),
        List.find?_cons_of_neg _ (by simp [h]), ih]

/-- The guarded row update never produces a negative stock from a
non-negative one. -/
theorem adjustRow_nonneg (product_id : Nat) (delta : Int) (p : ProductRow)
    (hp : 0 ≤ p.quantity_in_stock) :
    0 ≤ (Database.adjustRow product_id delta p).quantity_in_stock := by
  unfold Database.adjustRow
  split
  · next h => exact h.2
  · exact hp

/-- One `adjust_stock` call preserves the non-negative-stock invariant. -/
theorem adjust_stock_preserves_nonneg (db : Database) (product_id : Nat)
    (delta : Int) (h : ∀ p ∈ db.products, 0 ≤ p.quantity_in_stock) :
    ∀ p ∈ (db.adjust_stock product_id delta).products,
      0 ≤ p.quantity_in_stock := by
  intro p hp
  obtain ⟨q, hq, rfl⟩ := List.mem_map.1 hp
  exact adjustRow_nonneg _ _ _ (h q hq)

/-- Any sequence of `adjust_stock` calls preserves the non-negative-stock
invariant. -/
theorem adjust_stock_seq_nonneg (calls : List (Nat × Int)) (db : Database)
    (h : ∀ p ∈ db.products, 0 ≤ p.quantity_in_stock) :
    ∀ p ∈ (calls.foldl (fun d c => d.adjust_stock c.1 c.2) db).products,
      0 ≤ p.quantity_in_stock := by
  induction calls generalizing db with
  | nil => exact h
  | cons c t ih =>
    exact ih _ (adjust_stock_preserves_nonneg db c.1 c.2 h)

/-- C2 (amended): `adjust_stock(id, delta)` sets the product's stock to
`stock + delta` exactly when `stock + delta >= 0`; when every row with that
id would go negative the call has no effect on any product — but it returns
normally, reporting nothing to the caller (the `InsufficientStock` report the
claim promises does not exist, see the counterexample). Rows with other ids
are untouched, and every sequence of `adjust_stock` calls starting from
non-negative stock keeps all stocks non-negative. -/
theorem claim2_adjust_stock_guarded_silent (db : Database) (product_id : Nat)
    (delta : Int) (calls : List (Nat × Int)) :
    (∀ row, db.get_product_by_id product_id = some row →
       0 ≤ row.quantity_in_stock + delta →
       (db.adjust_stock product_id delta).get_product_by_id product_id =
         some { row with
                quantity_in_stock := row.quantity_in_stock + delta }) ∧
    ((∀ p ∈ db.products, p.id = product_id →
        p.quantity_in_stock + delta < 0) →
       db.adjust_stock product_id delta = db) ∧
    (∀ p ∈ db.products, p.id ≠ product_id →
       p ∈ (db.adjust_stock product_id delta).products) ∧
    ((∀ p ∈ db.products, 0 ≤ p.quantity_in_stock) →
       ∀ p ∈ (calls.foldl (fun d c => d.adjust_stock c.1 c.2) db).products,
         0 ≤ p.quantity_in_stock) := by
  refine ⟨?_, ?_, ?_, adjust_stock_seq_nonneg calls db⟩
  · intro row hrow hge
    have hid : row.id = product_id := by
      have := List.find?_some hrow
      simpa using this
    show (db.products.map (Database.adjustRow product_id delta)).find?
        (fun p => p.id = product_id) = _
    rw [find?_map_adjustRow]
    unfold Database.get_product_by_id at hrow
    rw [hrow]
    show some (Database.adjustRow product_id delta row) = _
    unfold Database.adjustRow
    rw [if_pos ⟨hid, hge⟩]
  · intro hall
    have hmap : db.products.map (Database.adjustRow product_id delta)
        = db.products := by
      rw [show db.products.map (Database.adjustRow product_id delta)
            = db.products.map id from
          List.map_congr_left (fun p hp => ?_), List.map_id]
      unfold Database.adjustRow
      rw [if_neg]
      · rfl
      · rintro ⟨h1, h2⟩
        exact absurd h2 (not_le.2 (hall p hp h1))
    show { db with
           products := db.products.map (Database.adjustRow product_id delta) }
        = db
    rw [hmap]
  · intro p hp hne
    have heq : Database.adjustRow product_id delta p = p := by
      unfold Database.adjustRow
      rw [if_neg]
      rintro ⟨h1, _⟩
      exact hne h1
    exact heq ▸ List.mem_map_of_mem _ hp

/-- C2 (witness): on the concrete catalog `db_c2` (stock 3), delta 1 updates
the stock to 4, delta -5 has no effect, and a concrete call sequence keeps
stock non-negative. -/
theorem claim2_adjust_stock_guarded_silent_witness :
    (db_c2.adjust_stock 1 1).get_product_by_id 1 =
      some { id := 1, barcode := "A1", name := "Apple", price := 2,
             quantity_in_stock := 3 + 1 } ∧
    db_c2.adjust_stock 1 (-5) = db_c2 ∧
    (∀ p ∈ (([((1 : Nat), (-2 : Int)), (1, -5), (1, 3)] :
          List (Nat × Int)).foldl
            (fun d c => d.adjust_stock c.1 c.2) db_c2).products,
       0 ≤ p.quantity_in_stock) :=
  ⟨(claim2_adjust_stock_guarded_silent db_c2 1 1 []).1 _ rfl (by decide),
   (claim2_adjust_stock_guarded_silent db_c2 1 (-5) []).2.1 (by decide),
   (claim2_adjust_stock_guarded_silent db_c2 1 0
      [(1, -2), (1, -5), (1, 3)]).2.2.2 (by decide)⟩

/-- C4: `scan_and_add(barcode, qty)` raises `Product not found.` when no
product has the barcode, raises `Not enough stock.` when the quantity
exceeds the product's stock, and otherwise adds the product with that
quantity to the cart; on either failure the system state — in particular the
cart — is returned unchanged. -/
theorem claim4_scan_and_add_behavior (sys : CashierSystem) (barcode : String)
    (qty : Int) :
    (sys.db.get_product_by_barcode barcode = none →
       sys.scan_and_add barcode qty =
         (sys, .error (.valueError "Product not found."))) ∧
    (∀ row, sys.db.get_product_by_barcode barcode = some row →
       ((Product.ofRow row).stock < qty →
          sys.scan_and_add barcode qty =
            (sys, .error (.valueError "Not enough stock."))) ∧
       (qty ≤ (Product.ofRow row).stock →
          sys.scan_and_add barcode qty =
            ({ sys with cart := sys.cart.add_item (Product.ofRow row) qty },
             .ok (Product.ofRow row, qty)))) := by
  refine ⟨fun h => ?_, fun row h => ⟨fun hlt => ?_, fun hle => ?_⟩⟩
  · unfold CashierSystem.scan_and_add
    rw [h]
  · unfold CashierSystem.scan_and_add
    rw [h]
    show (if (Product.ofRow row).stock < qty then _ else _) = _
    rw [if_pos hlt]
  · unfold CashierSystem.scan_and_add
    rw [h]
    show (if (Product.ofRow row).stock < qty then _ else _) = _
    rw [if_neg (not_lt.2 hle)]

/-- C4 (witness): on the concrete catalog with stock 2, scanning quantity 3
fails with `Not enough stock.` leaving the session unchanged, and scanning
quantity 2 succeeds and adds the line. -/
theorem claim4_scan_and_add_behavior_witness :
    sys_c4.scan_and_add "A1" 3 =
      (sys_c4, .error (.valueError "Not enough stock.")) ∧
    sys_c4.scan_and_add "A1" 2 =
      ({ sys_c4 with cart := sys_c4.cart.add_item (Product.ofRow row_c4) 2 },
       .ok (Product.ofRow row_c4, 2)) :=
  ⟨((claim4_scan_and_add_behavior sys_c4 "A1" 3).2 row_c4 rfl).1 (by decide),
   ((claim4_scan_and_add_behavior sys_c4 "A1" 2).2 row_c4 rfl).2 (by decide)⟩

/-- C5: `apply_discount_tax(discount)` returns the cart's subtotal, the
discount itself, and `total = max(round(subtotal - discount, 2), 0)`; the
total is never negative. -/
theorem claim5_compute_totals (sys : CashierSystem) (discount : ℚ) :
    sys.apply_discount_tax discount =
      { subtotal := sys.cart.subtotal, taxed := sys.cart.subtotal,
        discount := discount,
        total := max (round2 (sys.cart.subtotal - discount)) 0 } ∧
    0 ≤ (sys.apply_discount_tax discount).total :=
  ⟨rfl, le_max_right _ _⟩

/-- C7: every `checkout(discount)` call (checkout never fails in this code)
leaves the cart empty with subtotal 0, and returns a receipt holding, for
each former cart line, the product name, quantity, unit price and line
total, together with subtotal, total, discount and a timestamp. -/
theorem claim7_checkout_clears_cart (sys : CashierSystem) (discount : ℚ) :
    ((sys.checkout discount).1.cart.items = []) ∧
    ((sys.checkout discount).1.cart.subtotal = 0) ∧
    ((sys.checkout discount).2 =
      { items := sys.cart.items.map (fun ci =>
          (ci.product.name, ci.qty, ci.product.price, ci.line_total)),
        subtotal := sys.cart.subtotal, taxed := sys.cart.subtotal,
        discount := discount,
        total := max (round2 (sys.cart.subtotal - discount)) 0,
        timestamp := sys.db.now }) := by
  refine ⟨rfl, ?_, rfl⟩
  show Cart.subtotal { items := [] } = 0
  simp [Cart.subtotal, round2]

/-- Adding the same product twice accumulates into the same line as adding
once with the summed quantity, over the raw item list. -/
theorem addItemAux_merge (l : List CartItem) (p : Product) (q1 q2 : Int) :
    Cart.addItemAux (Cart.addItemAux l p q1) p q2 =
      Cart.addItemAux l p (q1 + q2) := by
  induction l with
  | nil =>
    show Cart.addItemAux [{ product := p, qty := q1 }] p q2 = _
    unfold Cart.addItemAux
    rw [if_pos rfl]
  | cons ci rest ih =>
    by_cases h : ci.product.id = p.id
    · simp [Cart.addItemAux, h, add_assoc]
    · simp [Cart.addItemAux, h, ih]

/-- When the product already has a line, adding changes no product ids. -/
theorem addItemAux_ids_of_mem (l : List CartItem) (p : Product) (q : Int)
    (h : p.id ∈ l.map (fun ci => ci.product.id)) :
    (Cart.addItemAux l p q).map (fun ci => ci.product.id) =
      l.map (fun ci => ci.product.id) := by
  induction l with
  | nil => simp at h
  | cons ci rest ih =>
    by_cases hc : ci.product.id = p.id
    · simp [Cart.addItemAux, hc]
    · have h2 : p.id ∈ ci.product.id :: rest.map (fun ci => ci.product.id) := by
        simpa only [List.map_cons] using h
      have hrest : p.id ∈ rest.map (fun ci => ci.product.id) := by
        rcases List.mem_cons.1 h2 with h1 | h1
        · exact absurd h1.symm hc
        · exact h1
      simp [Cart.addItemAux, hc, ih hrest]

/-- When the product has no line yet, adding appends exactly its id. -/
theorem addItemAux_ids_of_not_mem (l : List CartItem) (p : Product) (q : Int)
    (h : p.id ∉ l.map (fun ci => ci.product.id)) :
    (Cart.addItemAux l p q).map (fun ci => ci.product.id) =
      l.map (fun ci => ci.product.id) ++ [p.id] := by
  induction l with
  | nil => rfl
  | cons ci rest ih =>
    have h' := h
    simp only [List.map_cons, List.mem_cons, not_or] at h'
    have hc : ¬ ci.product.id = p.id := fun hh => h'.1 hh.symm
    simp [Cart.addItemAux, hc, ih (by simpa using h'.2)]

/-- Adding an item preserves distinctness of the cart's product ids. -/
theorem addItemAux_nodup (l : List CartItem) (p : Product) (q : Int)
    (h : (l.map (fun ci => ci.product.id)).Nodup) :
    ((Cart.addItemAux l p q).map (fun ci => ci.product.id)).Nodup := by
  by_cases hm : p.id ∈ l.map (fun ci => ci.product.id)
  · rw [addItemAux_ids_of_mem l p q hm]
    exact h
  · rw [addItemAux_ids_of_not_mem l p q hm]
    simp [List.nodup_append, h, hm]

/-- A product with no prior line ends with exactly one line carrying the
given quantity. -/
theorem addItemAux_filter_of_not_mem (l : List CartItem) (p : Product)
    (q : Int) (h : p.id ∉ l.map (fun ci => ci.product.id)) :
    (Cart.addItemAux l p q).filter (fun ci => ci.product.id = p.id) =
      [{ product := p, qty := q }] := by
  induction l with
  | nil =>
    simp [Cart.addItemAux]
  | cons ci rest ih =>
    have h' := h
    simp only [List.map_cons, List.mem_cons, not_or] at h'
    have hc : ¬ ci.product.id = p.id := fun hh => h'.1 hh.symm
    simp [Cart.addItemAux, hc, List.filter_cons, ih (by simpa using h'.2)]

/-- C6: adding a product with q1 then q2 produces the same cart as adding it
once with q1 + q2; when the product had no line, the result holds exactly one
line for it with quantity q1 + q2; and `add_item` never introduces a second
line with an existing product id. -/
theorem claim6_cart_merge (c : Cart) (p : Product) (q1 q2 : Int) :
    ((c.add_item p q1).add_item p q2 = c.add_item p (q1 + q2)) ∧
    (p.id ∉ c.items.map (fun ci => ci.product.id) →
       ((c.add_item p q1).add_item p q2).items.filter
           (fun ci => ci.product.id = p.id) =
         [{ product := p, qty := q1 + q2 }]) ∧
    ((c.items.map (fun ci => ci.product.id)).Nodup →
       ((c.add_item p q1).items.map (fun ci => ci.product.id)).Nodup) := by
  refine ⟨congrArg Cart.mk (addItemAux_merge c.items p q1 q2), fun h => ?_,
    fun h => addItemAux_nodup _ _ _ h⟩
  show (Cart.addItemAux (Cart.addItemAux c.items p q1) p q2).filter _ = _
  rw [addItemAux_merge]
  exact addItemAux_filter_of_not_mem _ _ _ h

/-- C6 (witness): on an empty cart, adding `prod_c6` with 2 then 3 leaves
exactly one line with quantity 2 + 3, and the ids stay distinct. -/
theorem claim6_cart_merge_witness :
    (((cart_c6.add_item prod_c6 2).add_item prod_c6 3).items.filter
        (fun ci => ci.product.id = prod_c6.id) =
      [{ product := prod_c6, qty := 2 + 3 }]) ∧
    (((cart_c6.add_item prod_c6 2).items.map
        (fun ci => ci.product.id)).Nodup) :=
  ⟨(claim6_cart_merge cart_c6 prod_c6 2 3).2.1 (by decide),
   (claim6_cart_merge cart_c6 prod_c6 2 3).2.2 (by decide)⟩

/-- A scan whose product is found with sufficient stock adds the line. -/
theorem scan_and_add_of_found (sys : CashierSystem) (barcode : String)
    (qty : Int) (row : ProductRow)
    (h : sys.db.get_product_by_barcode barcode = some row)
    (hle : qty ≤ (Product.ofRow row).stock) :
    sys.scan_and_add barcode qty =
      ({ sys with cart := sys.cart.add_item (Product.ofRow row) qty },
       .ok (Product.ofRow row, qty)) := by
  unfold CashierSystem.scan_and_add
  rw [h]
  show (if (Product.ofRow row).stock < qty then _ else _) = _
  rw [if_neg (not_lt.2 hle)]

/-- C9: the stock pre-check in `scan_and_add` compares the requested
quantity only to the catalog stock, never to what the cart already holds:
for any stock `s ≥ 1`, two successive scans of quantity `s` both succeed,
leaving a single cart line of quantity `s + s`, which exceeds the available
stock `s`. -/
theorem claim9_precheck_ignores_cart (s : Int) (hs : 1 ≤ s) :
    ((sys_c9 s).scan_and_add "A1" s =
       (sys1_c9 s, .ok (Product.ofRow (row_c9 s), s))) ∧
    ((sys1_c9 s).scan_and_add "A1" s =
       (sys2_c9 s, .ok (Product.ofRow (row_c9 s), s))) ∧
    ((sys2_c9 s).cart.items =
       [{ product := Product.ofRow (row_c9 s), qty := s + s }]) ∧
    s < s + s := by
  have hfind1 : (sys_c9 s).db.get_product_by_barcode "A1" =
      some (row_c9 s) := rfl
  have hfind2 : (sys1_c9 s).db.get_product_by_barcode "A1" =
      some (row_c9 s) := rfl
  have hle : s ≤ (Product.ofRow (row_c9 s)).stock := le_refl s
  refine ⟨?_, ?_, rfl, by omega⟩
  · rw [scan_and_add_of_found _ _ _ _ hfind1 hle]
    exact rfl
  · rw [scan_and_add_of_found _ _ _ _ hfind2 hle]
    exact rfl

/-- C9 (witness): the concrete run at stock 1: both scans of quantity 1
succeed and the cart line reaches quantity 2 against stock 1. -/
theorem claim9_precheck_ignores_cart_witness :
    ((sys_c9 1).scan_and_add "A1" 1 =
       (sys1_c9 1, .ok (Product.ofRow (row_c9 1), 1))) ∧
    ((sys1_c9 1).scan_and_add "A1" 1 =
       (sys2_c9 1, .ok (Product.ofRow (row_c9 1), 1))) ∧
    ((sys2_c9 1).cart.items =
       [{ product := Product.ofRow (row_c9 1), qty := 1 + 1 }]) ∧
    (1 : Int) < 1 + 1 :=
  claim9_precheck_ignores_cart 1 (by decide)

/-- C10: `get_sale_details` joins line items to the products table with an
inner join: after `delete_product` removes a product, the line-item rows
survive in storage, but the details of any sale omit every line item whose
product id was deleted, rather than returning a dangling reference. -/
theorem claim10_sale_details_inner_join (db : Database) (sid pid : Nat) :
    ((db.delete_product pid).1.sale_items = db.sale_items) ∧
    (∀ d, (db.delete_product pid).1.get_sale_details sid = some d →
       ∀ it ∈ d.items, it.product_id ≠ pid) := by
  refine ⟨rfl, fun d hd it hit => ?_⟩
  have hprod : (db.delete_product pid).1.products =
      db.products.filter (fun p => p.id ≠ pid) := rfl
  unfold Database.get_sale_details at hd
  rcases hfind : ((db.delete_product pid).1.sales.find?
      (fun s => s.id = sid)) with _ | sale
  · rw [hfind] at hd
    exact absurd hd (by simp)
  · rw [hfind] at hd
    have hd' := Option.some.inj hd
    rw [← hd'] at hit
    obtain ⟨si, hsi, hmap⟩ := List.mem_filterMap.1 hit
    rcases hfp : ((db.delete_product pid).1.products.find?
        (fun p => p.id = si.product_id)) with _ | p
    · rw [hfp] at hmap
      exact absurd hmap (by simp)
    · rw [hfp] at hmap
      have hit_eq := Option.some.inj hmap
      have hp_pred : p.id = si.product_id := by
        have := List.find?_some hfp
        simpa using this
      have hp_mem : p ∈ db.products.filter (fun p => p.id ≠ pid) := by
        rw [← hprod]
        exact List.mem_of_find?_eq_some hfp
      have hp_ne : p.id ≠ pid := by
        have := (List.mem_filter.1 hp_mem).2
        simpa using this
      have : it.product_id = si.product_id := by
        rw [← hit_eq]
      rw [this, ← hp_pred]
      exact hp_ne

/-- C10 (witness): in the concrete database, deleting product 1 keeps the
sale's line-item row in storage while the sale's details list no items. -/
theorem claim10_sale_details_inner_join_witness :
    ((db_c10.delete_product 1).1.sale_items = db_c10.sale_items) ∧
    (∀ it ∈ ({ sale := { id := 1, timestamp := 0, total := 10 },
               items := [] } : SaleDetails).items,
       it.product_id ≠ 1) :=
  ⟨(claim10_sale_details_inner_join db_c10 1 1).1,
   (claim10_sale_details_inner_join db_c10 1 1).2 _ rfl⟩
